import Mathlib

/-!
Verification development for the revyse-backend AI/file-service core
(`app/services/unified_ai_service.py` and `app/services/optimized_file_service.py`).

The Python code is shallowly embedded:
* `datetime.utcnow()` timestamps become a `now : Nat` parameter (seconds).
* Python dicts become association lists that preserve insertion order;
  overwriting a key keeps its position, exactly like a Python dict.
* The md5-based cache key `f"{operation}:{md5(content)[:16]}:{md5(params)[:8]}"`
  is modelled injectively as the triple (operation, content, serialized params);
  the digest is a deterministic function of exactly these inputs.
* Calls to the external AI backends (Gemini / OpenRouter) and to the local
  extraction libraries (pypdf, pytesseract, pdf2image, python-docx) are
  abstracted as environment records carrying each call's outcome for the
  request at hand; everything the repository itself computes is embedded.
* Python `Any` values flowing through the response cache are modelled by a
  `Json`-like value type; Python `None` is `Json.null`, and Python truthiness
  is `Json.truthy`.
-/

namespace Revyse

/-- Python-style values stored in the response cache and produced by
`json.loads`. `Json.null` doubles as Python `None`. -/
inductive Json where
  | null
  | bool (b : Bool)
  | num (n : Int)
  | str (s : String)
  | arr (elems : List Json)
  | obj (fields : List (String × Json))

/-- Python truthiness (`if cached:`) for the modelled values. -/
def Json.truthy : Json → Bool
  | .null => false
  | .bool b => b
  | .num n => decide (n ≠ 0)
  | .str s => decide (s ≠ "")
  | .arr elems => ! elems.isEmpty
  | .obj fields => ! fields.isEmpty

/-- `isinstance(result, list)` check from `_parse_json_response`. -/
def Json.isList : Json → Bool
  | .arr _ => true
  | _ => false

/-- `TokenUsage` dataclass: running counters for cost monitoring. -/
structure TokenUsage where
  input_tokens : Nat := 0
  output_tokens : Nat := 0
  total_calls : Nat := 0
  cached_hits : Nat := 0
deriving DecidableEq, Repr

/-- `TokenUsage.add_usage(input_tokens, output_tokens, cached)`. -/
def TokenUsage.add_usage (u : TokenUsage) (inTok outTok : Nat) (cached : Bool := false) :
    TokenUsage :=
  if cached then { u with cached_hits := u.cached_hits + 1 }
  else { u with
    input_tokens := u.input_tokens + inTok,
    output_tokens := u.output_tokens + outTok,
    total_calls := u.total_calls + 1 }

/-- Round-half-even to an integer, the behaviour of Python `round` (the float
rounding artefacts of the source are idealized away; none of the claims
depend on them). -/
def roundHalfEven (q : ℚ) : ℤ :=
  let f := ⌊q⌋
  let r := q - f
  if r < 1/2 then f
  else if 1/2 < r then f + 1
  else if f % 2 = 0 then f else f + 1

/-- `TokenUsage.estimate_cost`: `(input/1e6)*0.075 + (output/1e6)*0.30`,
rounded to 6 decimal places, in exact rational arithmetic. -/
def TokenUsage.estimate_cost (u : TokenUsage) : ℚ :=
  let input_cost : ℚ := ((u.input_tokens : ℚ) / 1000000) * (3/40)
  let output_cost : ℚ := ((u.output_tokens : ℚ) / 1000000) * (3/10)
  (roundHalfEven ((input_cost + output_cost) * 1000000) : ℚ) / 1000000

/-- `TokenUsage.get_stats`: the returned dict, as an ordered key/value list. -/
def TokenUsage.get_stats (u : TokenUsage) : List (String × ℚ) :=
  [("input_tokens", (u.input_tokens : ℚ)),
   ("output_tokens", (u.output_tokens : ℚ)),
   ("total_calls", (u.total_calls : ℚ)),
   ("cached_hits", (u.cached_hits : ℚ)),
   ("estimated_cost_usd", u.estimate_cost)]

/-- `CacheEntry` dataclass of `ResponseCache`. -/
structure CacheEntry where
  value : Json
  created_at : Nat
  ttl_seconds : Nat

/-- `CacheEntry.is_expired`: `datetime.utcnow() > created_at + timedelta(ttl)`. -/
def is_expired (now : Nat) (e : CacheEntry) : Bool :=
  decide (e.created_at + e.ttl_seconds < now)

/-- Cache key: (operation, content, serialized kwargs), standing for the
md5-based string `_generate_key` produces from exactly these three inputs. -/
abbrev CKey := String × String × String

/-- The `ResponseCache._cache` dict, in insertion order. -/
abbrev Cache := List (CKey × CacheEntry)

/-- `dict.get(key)`: first (unique, for a real dict) binding of `k`. -/
def dictFind (k : CKey) : Cache → Option CacheEntry
  | [] => none
  | (k', e) :: rest => if k' = k then some e else dictFind k rest

/-- `del dict[key]`: drops the binding of `k` (all of them; a real dict has
at most one). -/
def dictErase (k : CKey) (c : Cache) : Cache :=
  c.filter (fun p => decide (p.1 ≠ k))

/-- `dict[key] = value`: overwrite in place if present, else append —
Python dict update semantics. -/
def dictSet (k : CKey) (e : CacheEntry) : Cache → Cache
  | [] => [(k, e)]
  | (k', e') :: rest => if k' = k then (k, e) :: rest else (k', e') :: dictSet k e rest

/-- The dict invariant: each key bound at most once. -/
def cacheKeysNodup (c : Cache) : Prop := (c.map Prod.fst).Nodup

/-- `ResponseCache.get`: return the value if present and unexpired; delete the
entry and return `None` if present but expired; return `None` on absence. -/
def cache_get (now : Nat) (k : CKey) (c : Cache) : Json × Cache :=
  match dictFind k c with
  | none => (Json.null, c)
  | some e => if is_expired now e then (Json.null, dictErase k c) else (e.value, c)

/-- `ResponseCache._cleanup_expired`: drop every expired entry. -/
def cleanup_expired (now : Nat) (c : Cache) : Cache :=
  c.filter (fun p => ! is_expired now p.2)

/-- Insertion step of a sort: place `x` after every element `y` with
`le y x`. -/
def insertSorted (le : α → α → Bool) (x : α) : List α → List α
  | [] => [x]
  | y :: ys => if le y x then y :: insertSorted le x ys else x :: y :: ys

/-- Insertion sort; a stable sort standing for Python `sorted` (no claim
depends on the order of ties between equal sort keys). -/
def insertionSortBy (le : α → α → Bool) : List α → List α
  | [] => []
  | x :: xs => insertSorted le x (insertionSortBy le xs)

/-- The overflow branch of `ResponseCache.set`:
`sorted(self._cache.keys(), key=lambda k: self._cache[k].created_at)[:max_size // 4]`
followed by a `del` per selected key. The `del` loop over distinct present
keys equals this single filter. -/
def removeOldest (maxSize : Nat) (c : Cache) : Cache :=
  let sortedPairs := insertionSortBy (fun a b => decide (a.2.created_at ≤ b.2.created_at)) c
  let oldestKeys := (sortedPairs.map Prod.fst).take (maxSize / 4)
  c.filter (fun p => ! decide (p.1 ∈ oldestKeys))

/-- Eviction prologue of `ResponseCache.set`: at capacity, sweep expired
entries, and if still at capacity remove the oldest `max_size // 4` keys. -/
def evictForSet (now maxSize : Nat) (c : Cache) : Cache :=
  if maxSize ≤ c.length then
    let c2 := cleanup_expired now c
    if maxSize ≤ c2.length then removeOldest maxSize c2 else c2
  else c

/-- `ResponseCache.set`: evict if at capacity, then store a fresh entry
(overwriting any entry under the same key, with a fresh `created_at`). -/
def cache_set (now maxSize : Nat) (k : CKey) (v : Json) (ttl : Nat) (c : Cache) : Cache :=
  dictSet k ⟨v, now, ttl⟩ (evictForSet now maxSize c)

/-- `ResponseCache(max_size=500)` used by `UnifiedAIService`. -/
def serviceMaxSize : Nat := 500

/-! Python string primitives, implemented over `List Char` so that concrete
instances evaluate inside the kernel. -/

/-- Python slicing `s[:n]`. -/
def pyTake (s : String) (n : Nat) : String := String.mk (s.toList.take n)

/-- Python slicing `s[n:]`. -/
def pyDrop (s : String) (n : Nat) : String := String.mk (s.toList.drop n)

/-- Python slicing `s[:-n]`. -/
def pyDropRight (s : String) (n : Nat) : String :=
  String.mk (s.toList.take (s.toList.length - n))

/-- Python `s.startswith(pre)`. -/
def pyStartsWith (s pre : String) : Bool := pre.toList.isPrefixOf s.toList

/-- Python `s.endswith(suf)`. -/
def pyEndsWith (s suf : String) : Bool := suf.toList.isSuffixOf s.toList

/-- Python `s.strip()`. -/
def pyStrip (s : String) : String :=
  String.mk (((s.toList.dropWhile Char.isWhitespace).reverse.dropWhile Char.isWhitespace).reverse)

/-- Python `s.split()`: maximal runs of non-whitespace characters. -/
def pyWordsAux : List Char → List Char → List String
  | [], acc => if acc.isEmpty then [] else [String.mk acc.reverse]
  | ch :: rest, acc =>
    if ch.isWhitespace then
      if acc.isEmpty then pyWordsAux rest []
      else String.mk acc.reverse :: pyWordsAux rest []
    else pyWordsAux rest (ch :: acc)

/-- Python `s.split()` with no separator argument. -/
def pySplitWs (s : String) : List String := pyWordsAux s.toList []

/-- `file_extension.lower().lstrip('.')`. -/
def pyExtNormalize (s : String) : String :=
  String.mk ((s.toList.map Char.toLower).dropWhile (fun ch => ch = '.'))

/-! Provider selection (`UnifiedAIService._get_ai_response`). The two backend
calls `_get_gemini_response` / `_get_openrouter_response` are external
collaborators; the environment carries the outcome each would produce for the
request at hand: either `(content, input_tokens, output_tokens)` or the
message of the exception raised. -/

/-- The exceptions `_get_ai_response` can let escape. -/
inductive AIErr where
  | geminiFailed (msg : String)
  | openrouterFailed (msg : String)
  | noProvider
deriving DecidableEq, Repr

/-- Configured clients and the outcome of each backend for this request. -/
structure AIEnv where
  gemini_client : Bool
  openrouter_client : Bool
  primary_provider : Option String
  gemini_response : Except String (String × Nat × Nat)
  openrouter_response : Except String (String × Nat × Nat)

/-- The `if self.openrouter_client:` block at the end of `_get_ai_response`:
call OpenRouter, record usage on success, otherwise let the exception
propagate; with no client configured, raise `"No AI provider available"`. -/
def openrouter_attempt (env : AIEnv) (u : TokenUsage) : Except AIErr String × TokenUsage :=
  if env.openrouter_client then
    match env.openrouter_response with
    | .ok r => (.ok r.1, u.add_usage r.2.1 r.2.2 false)
    | .error e => (.error (.openrouterFailed e), u)
  else (.error .noProvider, u)

/-- `UnifiedAIService._get_ai_response`: try Gemini when it is the primary,
record usage on success; on a Gemini exception fall through to OpenRouter
when configured (the Gemini cause is only printed), else re-raise. -/
def get_ai_response (env : AIEnv) (u : TokenUsage) : Except AIErr String × TokenUsage :=
  if env.primary_provider = some "gemini" ∧ env.gemini_client = true then
    match env.gemini_response with
    | .ok r => (.ok r.1, u.add_usage r.2.1 r.2.2 false)
    | .error e =>
      if env.openrouter_client then openrouter_attempt env u
      else (.error (.geminiFailed e), u)
  else openrouter_attempt env u

/-- `UnifiedAIService._clean_json_response`: strip markdown fences. -/
def clean_json_response (content : String) : String :=
  let c := pyStrip content
  let c :=
    if pyStartsWith c "```json" then pyDrop c 7
    else if pyStartsWith c "```" then pyDrop c 3
    else c
  let c := if pyEndsWith c "```" then pyDropRight c 3 else c
  pyStrip c

/-- `fallback_key in result` / `result[fallback_key]` on a dict. -/
def lookupField (k : String) (fields : List (String × Json)) : Option Json :=
  (fields.find? (fun p => p.1 == k)).map Prod.snd

/-- `UnifiedAIService._parse_json_response`. `loads` abstracts `json.loads`,
returning the decode-error message on failure, which propagates. -/
def parse_json_response (loads : String → Except String Json) (content : String)
    (fallback_key : Option String) : Except String Json :=
  let c := clean_json_response content
  match loads c with
  | .error e => .error e
  | .ok result =>
    let listOrEmpty : Json := if result.isList then result else .arr []
    match fallback_key with
    | some fk =>
      if fk ≠ "" then
        match result with
        | .obj fields =>
          match lookupField fk fields with
          | some v => .ok v
          | none => .ok listOrEmpty
        | _ => .ok listOrEmpty
      else .ok listOrEmpty
    | none => .ok listOrEmpty

/-- Mutable state of the `UnifiedAIService` singleton. -/
structure AIState where
  cache : Cache
  usage : TokenUsage

/-- Cache key of `generate_summary` (full text, `summary_type` kwarg). -/
def summaryKey (text summary_type : String) : CKey :=
  ("summary", text, "summary_type=" ++ summary_type)

/-- `UnifiedAIService.generate_summary`: cache hit on a truthy cached value
records a cache hit; otherwise call the provider, store the result for
24 hours and return it. -/
def generate_summary (env : AIEnv) (now : Nat) (text summary_type : String)
    (st : AIState) : Except AIErr Json × AIState :=
  let key := summaryKey text summary_type
  let looked := cache_get now key st.cache
  if looked.1.truthy then
    (.ok looked.1, ⟨looked.2, st.usage.add_usage 0 0 true⟩)
  else
    match get_ai_response env st.usage with
    | (.error e, u2) => (.error e, ⟨looked.2, u2⟩)
    | (.ok content, u2) =>
      (.ok (.str content),
       ⟨cache_set now serviceMaxSize key (.str content) 86400 looked.2, u2⟩)

/-- Cache key of `generate_quiz_questions`: truncated text and the kwargs
`{"num": ..., "diff": ..., "type": ...}` serialized with sorted keys. -/
def quizKey (text : String) (num_questions : Nat) (difficulty : Option String)
    (quiz_type : String) : CKey :=
  ("quiz", pyTake text 5000,
    "diff=" ++ (match difficulty with | some d => d | none => "None") ++
    ";num=" ++ toString num_questions ++ ";type=" ++ quiz_type)

/-- `UnifiedAIService.generate_quiz_questions`: cached truthy value is a hit;
on a miss, call the provider, parse the JSON (fallback key `"questions"`),
cache and return the parsed list — but a `json.JSONDecodeError` is swallowed
and an empty list returned, with nothing cached. -/
def generate_quiz_questions (env : AIEnv) (loads : String → Except String Json)
    (now : Nat) (text : String) (num_questions : Nat) (difficulty : Option String)
    (quiz_type : String) (st : AIState) : Except AIErr Json × AIState :=
  let key := quizKey text num_questions difficulty quiz_type
  let looked := cache_get now key st.cache
  if looked.1.truthy then
    (.ok looked.1, ⟨looked.2, st.usage.add_usage 0 0 true⟩)
  else
    match get_ai_response env st.usage with
    | (.error e, u2) => (.error e, ⟨looked.2, u2⟩)
    | (.ok content, u2) =>
      match parse_json_response loads content (some "questions") with
      | .ok result =>
        (.ok result, ⟨cache_set now serviceMaxSize key result 3600 looked.2, u2⟩)
      | .error _ => (.ok (.arr []), ⟨looked.2, u2⟩)

/-- Cache key of `generate_flashcards`. -/
def flashcardsKey (text : String) (num_cards : Nat) : CKey :=
  ("flashcards", pyTake text 5000, "num=" ++ toString num_cards)

/-- `UnifiedAIService.generate_flashcards`, same shape as the quiz method
with fallback key `"flashcards"`. -/
def generate_flashcards (env : AIEnv) (loads : String → Except String Json)
    (now : Nat) (text : String) (num_cards : Nat) (st : AIState) :
    Except AIErr Json × AIState :=
  let key := flashcardsKey text num_cards
  let looked := cache_get now key st.cache
  if looked.1.truthy then
    (.ok looked.1, ⟨looked.2, st.usage.add_usage 0 0 true⟩)
  else
    match get_ai_response env st.usage with
    | (.error e, u2) => (.error e, ⟨looked.2, u2⟩)
    | (.ok content, u2) =>
      match parse_json_response loads content (some "flashcards") with
      | .ok result =>
        (.ok result, ⟨cache_set now serviceMaxSize key result 3600 looked.2, u2⟩)
      | .error _ => (.ok (.arr []), ⟨looked.2, u2⟩)

/-- Cache key of `generate_orientation_message` (no kwargs). -/
def orientationKey (academic_level : String) : CKey :=
  ("orientation", academic_level, "")

/-- `UnifiedAIService.generate_orientation_message`. -/
def generate_orientation_message (env : AIEnv) (now : Nat) (academic_level : String)
    (st : AIState) : Except AIErr Json × AIState :=
  let key := orientationKey academic_level
  let looked := cache_get now key st.cache
  if looked.1.truthy then
    (.ok looked.1, ⟨looked.2, st.usage.add_usage 0 0 true⟩)
  else
    match get_ai_response env st.usage with
    | (.error e, u2) => (.error e, ⟨looked.2, u2⟩)
    | (.ok content, u2) =>
      (.ok (.str content),
       ⟨cache_set now serviceMaxSize key (.str content) 86400 looked.2, u2⟩)

/-! `OptimizedFileService` (`optimized_file_service.py`). Files are identified
by their md5 content hash (`_get_file_hash`), modelled as an opaque string;
the extraction libraries are external and the environment carries their
per-page outputs for the document at hand. -/

/-- `OptimizedFileService._is_text_meaningful`: the text-quality heuristic.
The two float comparisons (average word length, alphanumeric ratio) are
stated by cross-multiplication in exact arithmetic. -/
def is_text_meaningful (text : String) (min_chars : Nat := 100) : Bool :=
  if (pyStrip text).length < min_chars then false
  else
    let words := pySplitWs text
    if words.length < 10 then false
    else
      let sumLen := (words.map String.length).sum
      if sumLen < 2 * words.length ∨ 20 * words.length < sumLen then false
      else
        let alnumCount := (text.toList.filter Char.isAlphanum).length
        if 0 < text.length ∧ 2 * alnumCount < text.length then false
        else true

/-- `OptimizedFileService._extract_pdf_local`: join the truthy page texts of
the pypdf reader (stripped) with blank lines; succeed iff the result passes
the quality heuristic. Any pypdf exception yields `("", False)`. -/
def extract_pdf_local (pages : Except String (List String)) : String × Bool :=
  match pages with
  | .error _ => ("", false)
  | .ok ps =>
    let parts := (ps.filter (fun t => ! t.isEmpty)).map pyStrip
    let full := String.intercalate "\n\n" parts
    (full, is_text_meaningful full 100)

/-- The `f"--- Page {i+1} ---\n{page_text.strip()}"` page marker. -/
def pageMarker (i : Nat) (t : String) : String :=
  "--- Page " ++ toString (i + 1) ++ " ---\n" ++ pyStrip t

/-- `OptimizedFileService._extract_pdf_with_ocr`: unavailable without both
pdf2image and pytesseract; otherwise mark and join the pages whose OCR text
strips to something non-empty, accepting via the heuristic at `min_chars=50`.
Exceptions yield `("", False)`. -/
def extract_pdf_with_ocr (pdf2image tesseract : Bool)
    (pages : Except String (List String)) : String × Bool :=
  if ! (pdf2image && tesseract) then ("", false)
  else
    match pages with
    | .error _ => ("", false)
    | .ok ps =>
      let parts := (ps.enum.filter (fun ip => ! (pyStrip ip.2).isEmpty)).map
        (fun ip => pageMarker ip.1 ip.2)
      let full := String.intercalate "\n\n" parts
      (full, is_text_meaningful full 50)

/-- Result of `_extract_pdf_with_ai_vision` together with the usage-ledger
state and the number of per-page provider requests issued. -/
structure VisionResult where
  result : Except String String
  usage : TokenUsage
  requests : Nat
deriving Repr

/-- One iteration of the vision loop: one `generate_content` request per page
image; a page contributing truthy text is marked, appended and reported to
the ledger as `add_usage(500, len(page_text) // 4)`; failed or empty pages
are skipped. -/
def visionStep (acc : List String × TokenUsage × Nat) (ip : Nat × Option String) :
    List String × TokenUsage × Nat :=
  match ip.2 with
  | some t =>
    if t.isEmpty then (acc.1, acc.2.1, acc.2.2 + 1)
    else (acc.1 ++ [pageMarker ip.1 t], acc.2.1.add_usage 500 (t.length / 4) false, acc.2.2 + 1)
  | none => (acc.1, acc.2.1, acc.2.2 + 1)

/-- `OptimizedFileService._extract_pdf_with_ai_vision`: requires the AI
service, Gemini and pdf2image; converts the PDF to page images (`pages`;
a conversion failure is wrapped), truncates to the first `max_pages = 10`,
issues one vision request per remaining page and joins the marked page texts;
raises when no page produced text. -/
def extract_pdf_with_ai_vision (aiAvailable geminiOk pdf2image : Bool)
    (pages : Except String (List (Option String))) (u : TokenUsage) : VisionResult :=
  if ! aiAvailable then ⟨.error "AI service not available", u, 0⟩
  else if ! geminiOk then ⟨.error "Gemini required for vision-based OCR", u, 0⟩
  else if ! pdf2image then
    ⟨.error "AI vision OCR failed: pdf2image required for AI vision OCR", u, 0⟩
  else
    match pages with
    | .error e => ⟨.error ("AI vision OCR failed: " ++ e), u, 0⟩
    | .ok ps =>
      let images := ps.take 10
      let acc := images.enum.foldl visionStep ([], u, 0)
      if acc.1.isEmpty then
        ⟨.error "AI vision OCR failed: No text could be extracted from any page",
         acc.2.1, acc.2.2⟩
      else ⟨.ok (String.intercalate "\n\n" acc.1), acc.2.1, acc.2.2⟩

/-- Extraction strategies of the PDF fallback chain, in order. -/
inductive Stage where
  | nativeParse
  | localOcr
  | remoteVision
deriving DecidableEq, Repr

/-- External-collaborator outcomes for one document. -/
structure FileEnv where
  pdf_pages : Except String (List String)
  pdf2image : Bool
  tesseract : Bool
  ocr_pages : Except String (List String)
  ai_available : Bool
  gemini_ok : Bool
  vision_pages : Except String (List (Option String))
  txt_result : Except String String
  docx_result : String × Bool

/-- Mutable state touched by `extract_text`: the hash-keyed `_text_cache`
and the shared usage ledger of the AI service. -/
structure FileState where
  text_cache : List (String × String)
  usage : TokenUsage

/-- `self._text_cache.get(file_hash)` (`file_hash in self._text_cache`). -/
def findCached (h : String) : List (String × String) → Option String
  | [] => none
  | (h', t) :: rest => if h' = h then some t else findCached h rest

/-- `self._text_cache[file_hash] = extracted_text`. -/
def cacheStore (h t : String) : List (String × String) → List (String × String)
  | [] => [(h, t)]
  | (h', t') :: rest => if h' = h then (h, t) :: rest else (h', t') :: cacheStore h t rest

/-- `OptimizedFileService.clear_cache`. -/
def clear_cache (st : FileState) : FileState := { st with text_cache := [] }

/-- `OptimizedFileService.extract_text`: consult the hash cache first; on a
miss run the format dispatch — for PDFs the chain native parse, then local
OCR, then AI vision, falling back to the best non-empty rejected text when
vision fails — then cache any non-empty result under the file hash. The
returned stage list records which chain strategies were invoked. -/
def extract_text (env : FileEnv) (fileHash : String) (file_extension : String)
    (st : FileState) : Except String String × FileState × List Stage :=
  let ext := pyExtNormalize file_extension
  match findCached fileHash st.text_cache with
  | some t => (.ok t, st, [])
  | none =>
    let attempt : Except String String × TokenUsage × List Stage :=
      if ext = "txt" then
        (env.txt_result, st.usage, [])
      else if ext = "pdf" then
        let nat := extract_pdf_local env.pdf_pages
        if nat.2 then (.ok nat.1, st.usage, [.nativeParse])
        else
          let ocr := extract_pdf_with_ocr env.pdf2image env.tesseract env.ocr_pages
          if ocr.2 then (.ok ocr.1, st.usage, [.nativeParse, .localOcr])
          else
            let vis := extract_pdf_with_ai_vision env.ai_available env.gemini_ok
              env.pdf2image env.vision_pages st.usage
            match vis.result with
            | .ok vtext => (.ok vtext, vis.usage, [.nativeParse, .localOcr, .remoteVision])
            | .error e =>
              if ! ocr.1.isEmpty then
                (.ok ocr.1, vis.usage, [.nativeParse, .localOcr, .remoteVision])
              else if ! nat.1.isEmpty then
                (.ok nat.1, vis.usage, [.nativeParse, .localOcr, .remoteVision])
              else
                (.error ("Failed to extract text from scanned PDF. Error: " ++ e),
                 vis.usage, [.nativeParse, .localOcr, .remoteVision])
      else if ext = "doc" ∨ ext = "docx" then
        if env.docx_result.2 then (.ok env.docx_result.1, st.usage, [])
        else if ! env.docx_result.1.isEmpty then (.ok env.docx_result.1, st.usage, [])
        else (.error "Failed to extract text from DOCX. The file may be corrupted.",
              st.usage, [])
      else (.error ("Unsupported file type: " ++ ext), st.usage, [])
    let finalCache :=
      match attempt.1 with
      | .ok t => if t.isEmpty then st.text_cache else cacheStore fileHash t st.text_cache
      | .error _ => st.text_cache
    (attempt.1, ⟨finalCache, attempt.2.1⟩, attempt.2.2)

/-- The best-effort text the vision-failure branch of `extract_text` falls
back to: the OCR text if non-empty, else the native-parse text. -/
def bestEffortOf (natText ocrText : String) : String :=
  if ocrText.isEmpty then natText else ocrText

/-! Concrete sample data used by witnesses and counterexamples. -/

/-- A `json.loads` stand-in that fails on every input, as on non-JSON text. -/
def loadsAlwaysFail : String → Except String Json :=
  fun _ => .error "Expecting value: line 1 column 1 (char 0)"

/-- Gemini configured and succeeding with raw non-JSON text. -/
def sampleEnvOk : AIEnv :=
  ⟨true, false, some "gemini", .ok ("not json", 5, 3), .error "unused"⟩

/-- 25 words of 4 letters: passes every branch of the quality heuristic. -/
def meaningfulSample : String :=
  "abcd abcd abcd abcd abcd abcd abcd abcd abcd abcd abcd abcd abcd " ++
  "abcd abcd abcd abcd abcd abcd abcd abcd abcd abcd abcd abcd"

/-- File environment whose native PDF parse yields accepted text. -/
def envNativeOk : FileEnv where
  pdf_pages := .ok [meaningfulSample]
  pdf2image := false
  tesseract := false
  ocr_pages := .error "unavailable"
  ai_available := true
  gemini_ok := false
  vision_pages := .error "unavailable"
  txt_result := .error "not a txt file"
  docx_result := ("", false)

/-- File environment where native parse produces short rejected text, local
OCR is unavailable and the vision stage raises. -/
def envBestEffort : FileEnv where
  pdf_pages := .ok ["short"]
  pdf2image := false
  tesseract := false
  ocr_pages := .ok []
  ai_available := true
  gemini_ok := false
  vision_pages := .ok []
  txt_result := .error "not a txt file"
  docx_result := ("", false)

/-- A response cache holding unexpired entries whose stored artifacts are
empty (empty string or empty list) for all four cached operations. -/
def cacheEmptyVals : Cache :=
  [(summaryKey "doc" "general", ⟨.str "", 0, 3600⟩),
   (quizKey "doc" 10 none "quiz", ⟨.arr [], 0, 3600⟩),
   (flashcardsKey "doc" 20, ⟨.arr [], 0, 3600⟩),
   (orientationKey "uni", ⟨.str "", 0, 3600⟩)]

/-- A cache filled to a capacity of four with distinct, unexpired entries. -/
def cacheFourW : Cache :=
  [(("a", "", ""), ⟨.str "t1", 0, 1000⟩), (("b", "", ""), ⟨.str "t2", 1, 1000⟩),
   (("c", "", ""), ⟨.str "t3", 2, 1000⟩), (("d", "", ""), ⟨.str "t4", 3, 1000⟩)]

/-! Helper lemmas. -/

theorem length_filter_lt_of_mem {α : Type _} {p : α → Bool} {l : List α} {x : α}
    (hx : x ∈ l) (hpx : p x = false) : (l.filter p).length < l.length := by
  induction l with
  | nil => cases hx
  | cons a t ih =>
    rcases List.mem_cons.mp hx with h | h
    · subst h
      simp only [List.filter_cons, hpx]
      exact Nat.lt_succ_of_le (List.length_filter_le p t)
    · simp only [List.filter_cons]
      rcases hp : p a with _ | _
      · simp only [Bool.false_eq_true, ite_false]
        exact Nat.lt_succ_of_lt (ih h)
      · simpa using Nat.succ_lt_succ (ih h)

theorem length_insertSorted {α : Type _} (le : α → α → Bool) (x : α) (l : List α) :
    (insertSorted le x l).length = l.length + 1 := by
  induction l with
  | nil => rfl
  | cons y ys ih =>
    simp only [insertSorted]
    split
    · simp [ih]
    · simp

theorem mem_insertSorted {α : Type _} {le : α → α → Bool} {x a : α} {l : List α} :
    a ∈ insertSorted le x l ↔ a = x ∨ a ∈ l := by
  induction l with
  | nil => simp [insertSorted]
  | cons y ys ih =>
    rcases hyx : le y x with _ | _
    · simp only [insertSorted, hyx, Bool.false_eq_true, ite_false, List.mem_cons]
    · simp only [insertSorted, hyx, ite_true, List.mem_cons, ih]
      tauto

theorem length_insertionSortBy {α : Type _} (le : α → α → Bool) (l : List α) :
    (insertionSortBy le l).length = l.length := by
  induction l with
  | nil => rfl
  | cons x xs ih => simp [insertionSortBy, length_insertSorted, ih]

theorem mem_insertionSortBy {α : Type _} {le : α → α → Bool} {a : α} {l : List α} :
    a ∈ insertionSortBy le l ↔ a ∈ l := by
  induction l with
  | nil => simp [insertionSortBy]
  | cons x xs ih => simp [insertionSortBy, mem_insertSorted, ih]

theorem dictFind_dictSet_self (k : CKey) (e : CacheEntry) (c : Cache) :
    dictFind k (dictSet k e c) = some e := by
  induction c with
  | nil => simp [dictSet, dictFind]
  | cons p rest ih =>
    obtain ⟨k', e'⟩ := p
    by_cases h : k' = k
    · simp [dictSet, h, dictFind]
    · simp [dictSet, h, dictFind, ih]

theorem mem_dictSet {p : CKey × CacheEntry} {k : CKey} {e : CacheEntry} {c : Cache}
    (hp : p ∈ dictSet k e c) : p = (k, e) ∨ p ∈ c := by
  induction c with
  | nil => simpa [dictSet] using hp
  | cons q rest ih =>
    obtain ⟨k', e'⟩ := q
    by_cases h : k' = k
    · simp only [dictSet, h, if_true, ite_true, List.mem_cons] at hp
      rcases hp with h1 | h1
      · exact Or.inl h1
      · exact Or.inr (List.mem_cons_of_mem _ h1)
    · simp only [dictSet, h, ite_false, List.mem_cons] at hp
      rcases hp with h1 | h1
      · exact Or.inr (by simp [h1])
      · rcases ih h1 with h2 | h2
        · exact Or.inl h2
        · exact Or.inr (List.mem_cons_of_mem _ h2)

theorem length_dictSet_le (k : CKey) (e : CacheEntry) (c : Cache) :
    (dictSet k e c).length ≤ c.length + 1 := by
  induction c with
  | nil => simp [dictSet]
  | cons q rest ih =>
    obtain ⟨k', e'⟩ := q
    by_cases h : k' = k
    · simp [dictSet, h]
    · simp only [dictSet, h, ite_false, List.length_cons]
      exact Nat.succ_le_succ ih

theorem keys_dictSet {a : CKey} {k : CKey} {e : CacheEntry} {c : Cache}
    (ha : a ∈ (dictSet k e c).map Prod.fst) : a = k ∨ a ∈ c.map Prod.fst := by
  rcases List.mem_map.mp ha with ⟨p, hp, hpa⟩
  rcases mem_dictSet hp with h | h
  · left
    rw [← hpa, h]
  · exact Or.inr (List.mem_map.mpr ⟨p, h, hpa⟩)

theorem cacheKeysNodup_filter {c : Cache} (p : CKey × CacheEntry → Bool)
    (h : cacheKeysNodup c) : cacheKeysNodup (c.filter p) := by
  unfold cacheKeysNodup at h ⊢
  exact h.sublist ((List.filter_sublist c).map Prod.fst)

theorem cacheKeysNodup_dictSet {c : Cache} (k : CKey) (e : CacheEntry)
    (h : cacheKeysNodup c) : cacheKeysNodup (dictSet k e c) := by
  induction c with
  | nil => simp [cacheKeysNodup, dictSet]
  | cons q rest ih =>
    obtain ⟨k', e'⟩ := q
    unfold cacheKeysNodup at h
    simp only [List.map_cons, List.nodup_cons] at h
    by_cases hk : k' = k
    · subst hk
      unfold cacheKeysNodup
      simp only [dictSet, if_true, ite_true, List.map_cons, List.nodup_cons]
      exact h
    · unfold cacheKeysNodup
      simp only [dictSet, hk, ite_false, List.map_cons, List.nodup_cons]
      refine ⟨fun hmem => ?_, ih h.2⟩
      rcases keys_dictSet hmem with h1 | h1
      · exact hk h1
      · exact h.1 h1

theorem dictErase_eq_self_of_not_mem {k : CKey} {c : Cache}
    (h : k ∉ c.map Prod.fst) : dictErase k c = c := by
  unfold dictErase
  rw [List.filter_eq_self]
  intro a ha
  simp only [decide_eq_true_eq]
  intro hak
  exact h (List.mem_map.mpr ⟨a, ha, hak⟩)

theorem dictErase_cons_self (k : CKey) (e' : CacheEntry) (rest : Cache) :
    dictErase k ((k, e') :: rest) = dictErase k rest := by
  simp [dictErase, List.filter_cons]

theorem dictErase_cons_ne {k k' : CKey} (h : ¬ k' = k) (e' : CacheEntry) (rest : Cache) :
    dictErase k ((k', e') :: rest) = (k', e') :: dictErase k rest := by
  simp [dictErase, List.filter_cons, h]

theorem length_dictErase_succ {k : CKey} {e : CacheEntry} {c : Cache}
    (hnodup : cacheKeysNodup c) (hfind : dictFind k c = some e) :
    (dictErase k c).length + 1 = c.length := by
  induction c with
  | nil => simp [dictFind] at hfind
  | cons q rest ih =>
    obtain ⟨k', e'⟩ := q
    simp only [cacheKeysNodup, List.map_cons, List.nodup_cons] at hnodup
    by_cases hk : k' = k
    · subst hk
      rw [dictErase_cons_self, dictErase_eq_self_of_not_mem hnodup.1]
      simp
    · rw [dictErase_cons_ne hk]
      simp only [dictFind, hk, ite_false] at hfind
      have := ih hnodup.2 hfind
      simp only [List.length_cons]
      omega

theorem mem_removeOldest {p : CKey × CacheEntry} {maxSize : Nat} {c : Cache}
    (hp : p ∈ removeOldest maxSize c) : p ∈ c := by
  unfold removeOldest at hp
  exact List.mem_of_mem_filter hp

theorem length_removeOldest_lt {maxSize : Nat} {c : Cache}
    (hne : c ≠ []) (h14 : 1 ≤ maxSize / 4) :
    (removeOldest maxSize c).length < c.length := by
  have hsne : insertionSortBy (fun a b => decide (a.2.created_at ≤ b.2.created_at)) c ≠ [] := by
    intro hcon
    have := length_insertionSortBy (fun a b => decide (a.2.created_at ≤ b.2.created_at)) c
    rw [hcon] at this
    exact hne (List.eq_nil_of_length_eq_zero this.symm)
  obtain ⟨q, rest, hqr⟩ := List.exists_cons_of_ne_nil hsne
  have hqsort : q ∈ insertionSortBy (fun a b => decide (a.2.created_at ≤ b.2.created_at)) c := by
    rw [hqr]
    exact List.mem_cons_self q rest
  have hqc : q ∈ c := mem_insertionSortBy.mp hqsort
  obtain ⟨m, hm⟩ := Nat.exists_eq_add_of_le h14
  have hqmem : q.1 ∈ ((insertionSortBy (fun a b => decide (a.2.created_at ≤ b.2.created_at)) c).map
      Prod.fst).take (maxSize / 4) := by
    rw [hqr, List.map_cons, hm, Nat.add_comm, List.take_succ_cons]
    exact List.mem_cons_self _ _
  simp only [removeOldest]
  exact length_filter_lt_of_mem hqc (by simp [hqmem])

theorem cacheKeysNodup_removeOldest (maxSize : Nat) {c : Cache} (h : cacheKeysNodup c) :
    cacheKeysNodup (removeOldest maxSize c) := by
  simp only [removeOldest]
  exact cacheKeysNodup_filter _ h

theorem cacheKeysNodup_evictForSet (now maxSize : Nat) {c : Cache} (h : cacheKeysNodup c) :
    cacheKeysNodup (evictForSet now maxSize c) := by
  simp only [evictForSet]
  split
  · split
    · exact cacheKeysNodup_removeOldest _ (cacheKeysNodup_filter _ h)
    · exact cacheKeysNodup_filter _ h
  · exact h

theorem cacheKeysNodup_cache_set (now maxSize : Nat) (k : CKey) (v : Json) (ttl : Nat)
    {c : Cache} (h : cacheKeysNodup c) : cacheKeysNodup (cache_set now maxSize k v ttl c) :=
  cacheKeysNodup_dictSet _ _ (cacheKeysNodup_evictForSet _ _ h)

theorem mem_evictForSet_of_triggered {now maxSize : Nat} {c : Cache}
    (htrig : maxSize ≤ c.length) {p : CKey × CacheEntry}
    (hp : p ∈ evictForSet now maxSize c) : is_expired now p.2 = false := by
  simp only [evictForSet] at hp
  rw [if_pos htrig] at hp
  have hclean : p ∈ cleanup_expired now c := by
    by_cases h2 : maxSize ≤ (cleanup_expired now c).length
    · rw [if_pos h2] at hp
      exact mem_removeOldest hp
    · rw [if_neg h2] at hp
      exact hp
  simp only [cleanup_expired, List.mem_filter] at hclean
  simpa using hclean.2

theorem length_evictForSet_lt (now : Nat) {maxSize : Nat} {c : Cache}
    (hle : c.length ≤ maxSize) (h4 : 4 ≤ maxSize) (htrig : maxSize ≤ c.length) :
    (evictForSet now maxSize c).length < maxSize := by
  simp only [evictForSet]
  rw [if_pos htrig]
  by_cases h2 : maxSize ≤ (cleanup_expired now c).length
  · rw [if_pos h2]
    have hcl : (cleanup_expired now c).length ≤ c.length := List.length_filter_le _ _
    have hne : cleanup_expired now c ≠ [] := by
      intro hcon
      rw [hcon] at h2
      simp only [List.length_nil] at h2
      omega
    have h14 : 1 ≤ maxSize / 4 :=
      (Nat.le_div_iff_mul_le (by norm_num)).mpr (by omega)
    have := length_removeOldest_lt hne h14
    omega
  · rw [if_neg h2]
    omega

theorem length_cache_set_le {now maxSize : Nat} {k : CKey} {v : Json} {ttl : Nat} {c : Cache}
    (hle : c.length ≤ maxSize) (h4 : 4 ≤ maxSize) :
    (cache_set now maxSize k v ttl c).length ≤ maxSize := by
  unfold cache_set
  have hd := length_dictSet_le k ⟨v, now, ttl⟩ (evictForSet now maxSize c)
  by_cases htrig : maxSize ≤ c.length
  · have := length_evictForSet_lt now hle h4 htrig
    omega
  · have hev : evictForSet now maxSize c = c := by
      simp only [evictForSet]
      rw [if_neg htrig]
    rw [hev] at hd ⊢
    omega

theorem foldl_visionStep_requests (l : List (Nat × Option String))
    (acc : List String × TokenUsage × Nat) :
    (l.foldl visionStep acc).2.2 = acc.2.2 + l.length := by
  induction l generalizing acc with
  | nil => simp
  | cons x xs ih =>
    rw [List.foldl_cons, ih]
    have hx : (visionStep acc x).2.2 = acc.2.2 + 1 := by
      rcases hx2 : x.2 with _ | t
      · simp [visionStep, hx2]
      · rcases ht : t.isEmpty with _ | _ <;> simp [visionStep, hx2, ht]
    rw [hx, List.length_cons]
    omega

theorem get_ai_response_ok_usage {env : AIEnv} {u u2 : TokenUsage} {s : String}
    (h : get_ai_response env u = (.ok s, u2)) :
    u2.cached_hits = u.cached_hits ∧ u2.total_calls = u.total_calls + 1 := by
  unfold get_ai_response openrouter_attempt at h
  split at h
  · split at h
    · rw [Prod.mk.injEq] at h
      rw [← h.2]
      simp [TokenUsage.add_usage]
    · split at h
      · split at h
        · rw [Prod.mk.injEq] at h
          rw [← h.2]
          simp [TokenUsage.add_usage]
        · simp at h
      · simp at h
  · split at h
    · split at h
      · rw [Prod.mk.injEq] at h
        rw [← h.2]
        simp [TokenUsage.add_usage]
      · simp at h
    · simp at h

theorem findCached_cacheStore_self (h t : String) (m : List (String × String)) :
    findCached h (cacheStore h t m) = some t := by
  induction m with
  | nil => simp [cacheStore, findCached]
  | cons q rest ih =>
    obtain ⟨h', t'⟩ := q
    by_cases hh : h' = h
    · simp [cacheStore, hh, findCached]
    · simp [cacheStore, hh, findCached, ih]

theorem extract_text_of_cached {env : FileEnv} {fileHash file_extension : String}
    {st : FileState} {t : String} (hc : findCached fileHash st.text_cache = some t) :
    extract_text env fileHash file_extension st = (.ok t, st, []) := by
  simp only [extract_text, hc]

theorem is_text_meaningful_empty {n : Nat} (hn : 0 < n) :
    is_text_meaningful "" n = false := by
  have hstrip : pyStrip "" = "" := rfl
  unfold is_text_meaningful
  rw [if_pos]
  rw [hstrip]
  simpa using hn

theorem extract_pdf_local_ne_empty {ps : Except String (List String)}
    (h : (extract_pdf_local ps).2 = true) : (extract_pdf_local ps).1.isEmpty = false := by
  rcases ps with e | l
  · simp [extract_pdf_local] at h
  · simp only [extract_pdf_local] at h ⊢
    rcases hne : (String.intercalate "\n\n" ((l.filter fun t => !t.isEmpty).map pyStrip)).isEmpty
      with _ | _
    · exact hne
    · exfalso
      have hstr : String.intercalate "\n\n" ((l.filter fun t => !t.isEmpty).map pyStrip) = "" := by
        rw [← String.isEmpty_iff]
        exact hne
      rw [hstr] at h
      rw [is_text_meaningful_empty (by norm_num)] at h
      exact Bool.false_ne_true h

/-! Claim theorems. -/

/-- Claim C1, counterexample: at the exact boundary instant
`now = created_at + ttl` (entry stored at time 0 with ttl 10, read at
time 10), `is_expired` is false because the code compares with a strict
`>`, so `get` returns the stored value and leaves the cache unchanged —
not the miss-plus-deletion the claim requires at the boundary. -/
theorem ttl_boundary_get_is_hit :
    cache_get 10 ("summary", "doc", "summary_type=general")
        (cache_set 0 500 ("summary", "doc", "summary_type=general") (.str "v") 10 [])
      = (.str "v",
         cache_set 0 500 ("summary", "doc", "summary_type=general") (.str "v") 10 []) := rfl

/-- Claim C1, amended: for every fingerprint stored via `set` with a TTL, a
`get` performed strictly after expiry (`now > created_at + ttl`) returns a
miss (`None`) and deletes the expired entry, shrinking the cache by one
entry; at the exact boundary `now = created_at + ttl` the entry is instead
still served. -/
theorem cache_get_strictly_after_expiry_misses_and_deletes
    (c : Cache) (k : CKey) (v : Json) (ttl t0 now maxSize : Nat)
    (hnodup : cacheKeysNodup c) (hlate : t0 + ttl < now) :
    cache_get now k (cache_set t0 maxSize k v ttl c)
      = (Json.null, dictErase k (cache_set t0 maxSize k v ttl c)) ∧
    (dictErase k (cache_set t0 maxSize k v ttl c)).length + 1
      = (cache_set t0 maxSize k v ttl c).length := by
  have hfind : dictFind k (cache_set t0 maxSize k v ttl c) = some ⟨v, t0, ttl⟩ :=
    dictFind_dictSet_self k ⟨v, t0, ttl⟩ (evictForSet t0 maxSize c)
  have hexp : is_expired now ⟨v, t0, ttl⟩ = true := by
    simp [is_expired, hlate]
  constructor
  · simp [cache_get, hfind, hexp]
  · exact length_dictErase_succ (cacheKeysNodup_cache_set t0 maxSize k v ttl hnodup) hfind

/-- Witness for the amended C1 theorem at a concrete input. -/
theorem cache_get_strictly_after_expiry_witness :
    cache_get 11 ("summary", "doc", "summary_type=general")
        (cache_set 0 500 ("summary", "doc", "summary_type=general") (.str "v") 10 [])
      = (Json.null, dictErase ("summary", "doc", "summary_type=general")
          (cache_set 0 500 ("summary", "doc", "summary_type=general") (.str "v") 10 [])) ∧
    (dictErase ("summary", "doc", "summary_type=general")
        (cache_set 0 500 ("summary", "doc", "summary_type=general") (.str "v") 10 [])).length + 1
      = (cache_set 0 500 ("summary", "doc", "summary_type=general") (.str "v") 10 []).length :=
  cache_get_strictly_after_expiry_misses_and_deletes [] _ (.str "v") 10 0 11 500
    (by simp [cacheKeysNodup]) (by norm_num)

/-- Claim C3, counterexample: with Gemini primary and OpenRouter fallback
both failing, the surfaced failure is identical for two different primary
causes and carries only the OpenRouter cause, so it cannot describe both
attempts. -/
theorem both_fail_error_ignores_primary_cause :
    get_ai_response
        ⟨true, true, some "gemini", .error "primary boom", .error "secondary boom"⟩
        ⟨0, 0, 0, 0⟩
      = get_ai_response
        ⟨true, true, some "gemini", .error "a different primary cause", .error "secondary boom"⟩
        ⟨0, 0, 0, 0⟩ ∧
    (get_ai_response
        ⟨true, true, some "gemini", .error "primary boom", .error "secondary boom"⟩
        ⟨0, 0, 0, 0⟩).1
      = .error (.openrouterFailed "secondary boom") := ⟨rfl, rfl⟩

/-- Claim C3, amended: when the Gemini primary attempt fails and the
configured OpenRouter fallback also fails, `_get_ai_response` propagates the
fallback attempt's exception alone (the primary cause is only printed), and
the ledger is left unchanged. -/
theorem both_fail_propagates_only_secondary_failure
    (u : TokenUsage) (gmsg omsg : String) :
    get_ai_response ⟨true, true, some "gemini", .error gmsg, .error omsg⟩ u
      = (.error (.openrouterFailed omsg), u) := by
  simp [get_ai_response, openrouter_attempt]

/-- Claim C4, counterexample: the stats dict returned by
`TokenUsage.get_stats` for the zero ledger has no `cache_hit_rate` key at
all — the snapshot does not return the claimed derived value. -/
theorem get_stats_has_no_cache_hit_rate_key :
    "cache_hit_rate" ∉ (TokenUsage.get_stats ⟨0, 0, 0, 0⟩).map Prod.fst := by
  decide

/-- Claim C4, amended: `get_stats` returns exactly the four raw counters and
the derived `estimated_cost_usd` — no `cache_hit_rate` field exists — and on
a ledger with 0 calls and 0 hits it is still well defined, with estimated
cost 0 (not an error or NaN). -/
theorem get_stats_fields_and_zero_ledger (u : TokenUsage) :
    (u.get_stats).map Prod.fst
      = ["input_tokens", "output_tokens", "total_calls", "cached_hits",
         "estimated_cost_usd"] ∧
    "cache_hit_rate" ∉ (u.get_stats).map Prod.fst ∧
    TokenUsage.estimate_cost ⟨0, 0, 0, 0⟩ = 0 := by
  have h1 : (u.get_stats).map Prod.fst
      = ["input_tokens", "output_tokens", "total_calls", "cached_hits",
         "estimated_cost_usd"] := rfl
  refine ⟨h1, by rw [h1]; decide, ?_⟩
  show TokenUsage.estimate_cost ⟨0, 0, 0, 0⟩ = 0
  simp only [TokenUsage.estimate_cost, roundHalfEven]
  norm_num

/-- Claim C5 (confirmed): when the Gemini primary attempt raises and the
configured OpenRouter fallback succeeds, `_get_ai_response` returns the
fallback's content and the ledger records exactly one call with the token
units of the fallback attempt; the failed primary attempt records nothing
and cache hits are untouched. -/
theorem fallback_success_records_exactly_one_call
    (u : TokenUsage) (gmsg orContent : String) (inTok outTok : Nat) :
    get_ai_response ⟨true, true, some "gemini", .error gmsg, .ok (orContent, inTok, outTok)⟩ u
      = (.ok orContent,
         { input_tokens := u.input_tokens + inTok,
           output_tokens := u.output_tokens + outTok,
           total_calls := u.total_calls + 1,
           cached_hits := u.cached_hits }) := by
  simp [get_ai_response, openrouter_attempt, TokenUsage.add_usage]

/-- Claim C6, counterexample: with `max_size = 1` (so `max_size // 4 = 0`),
inserting a second distinct fingerprint into a full cache of one unexpired
entry evicts nothing and leaves 2 entries — more than `max_size` — refuting
the claimed bound for every cache state and capacity. -/
theorem small_capacity_put_exceeds_max_size :
    (cache_set 0 1 ("op", "b", "") (.str "y") 100
        (cache_set 0 1 ("op", "a", "") (.str "x") 100 [])).length = 2 := rfl

/-- Claim C6, amended: provided the cache currently holds at most `max_size`
entries and `max_size ≥ 4` (so that `max_size // 4 ≥ 1`), `set` leaves at
most `max_size` entries, and whenever the insertion found the cache at
capacity, every retained entry — including the fresh one — is unexpired. -/
theorem put_bounds_size_and_evicts_expired
    (now maxSize : Nat) (k : CKey) (v : Json) (ttl : Nat) (c : Cache)
    (hle : c.length ≤ maxSize) (h4 : 4 ≤ maxSize) :
    (cache_set now maxSize k v ttl c).length ≤ maxSize ∧
    (maxSize ≤ c.length →
      (cache_set now maxSize k v ttl c).all (fun p => ! is_expired now p.2) = true) := by
  refine ⟨length_cache_set_le hle h4, fun htrig => ?_⟩
  rw [List.all_eq_true]
  intro p hp
  unfold cache_set at hp
  rcases mem_dictSet hp with hnew | hold
  · subst hnew
    simp [is_expired]
  · simp [mem_evictForSet_of_triggered htrig hold]

/-- Witness for the amended C6 theorem: a full cache of capacity 4 accepts a
fifth distinct fingerprint, stays within capacity and retains no expired
entry. -/
theorem put_bounds_size_and_evicts_expired_witness :
    (cache_set 50 4 ("e", "", "") (.str "x") 1000 cacheFourW).length ≤ 4 ∧
    (cache_set 50 4 ("e", "", "") (.str "x") 1000 cacheFourW).all
      (fun p => ! is_expired 50 p.2) = true :=
  ⟨(put_bounds_size_and_evicts_expired 50 4 ("e", "", "") (.str "x") 1000 cacheFourW
      (by decide) (by decide)).1,
   (put_bounds_size_and_evicts_expired 50 4 ("e", "", "") (.str "x") 1000 cacheFourW
      (by decide) (by decide)).2 (by decide)⟩

/-- Claim C2, counterexample: the provider succeeds with raw text the JSON
parser rejects, yet `generate_quiz_questions` completes with `ok []` — a
silently returned degenerate empty list — instead of failing with a
structured-output parse error. -/
theorem quiz_parse_failure_returns_ok_empty :
    generate_quiz_questions sampleEnvOk loadsAlwaysFail 0 "material" 10 none "quiz"
        ⟨[], ⟨0, 0, 0, 0⟩⟩
      = (.ok (.arr []), ⟨[], ⟨5, 3, 1, 0⟩⟩) := rfl

/-- Claim C2, amended: when the provider's raw text cannot be parsed as JSON,
`generate_quiz_questions` and `generate_flashcards` swallow the decode error
and return an empty list, caching nothing; no structured-output parse error
reaches the caller. -/
theorem parse_failure_yields_empty_list_no_error
    (env : AIEnv) (loads : String → Except String Json) (now : Nat)
    (text quiz_type : String) (num_questions num_cards : Nat)
    (difficulty : Option String) (st : AIState) (content : String)
    (u2 : TokenUsage) (emsg : String)
    (hP : get_ai_response env st.usage = (.ok content, u2))
    (hloads : loads (clean_json_response content) = .error emsg)
    (hQ : (cache_get now (quizKey text num_questions difficulty quiz_type) st.cache).1.truthy
      = false)
    (hF : (cache_get now (flashcardsKey text num_cards) st.cache).1.truthy = false) :
    generate_quiz_questions env loads now text num_questions difficulty quiz_type st
      = (.ok (.arr []),
         ⟨(cache_get now (quizKey text num_questions difficulty quiz_type) st.cache).2, u2⟩) ∧
    generate_flashcards env loads now text num_cards st
      = (.ok (.arr []),
         ⟨(cache_get now (flashcardsKey text num_cards) st.cache).2, u2⟩) := by
  have hparseQ : parse_json_response loads content (some "questions") = .error emsg := by
    simp only [parse_json_response, hloads]
  have hparseF : parse_json_response loads content (some "flashcards") = .error emsg := by
    simp only [parse_json_response, hloads]
  constructor
  · simp only [generate_quiz_questions, hQ, Bool.false_eq_true, ite_false, hP, hparseQ]
  · simp only [generate_flashcards, hF, Bool.false_eq_true, ite_false, hP, hparseF]

/-- Witness for the amended C2 theorem at a concrete input. -/
theorem parse_failure_yields_empty_list_no_error_witness :
    generate_quiz_questions sampleEnvOk loadsAlwaysFail 3 "study text" 10 none "quiz"
        ⟨[], ⟨0, 0, 0, 0⟩⟩
      = (.ok (.arr []),
         ⟨(cache_get 3 (quizKey "study text" 10 none "quiz") ([] : Cache)).2,
          ⟨5, 3, 1, 0⟩⟩) ∧
    generate_flashcards sampleEnvOk loadsAlwaysFail 3 "study text" 20 ⟨[], ⟨0, 0, 0, 0⟩⟩
      = (.ok (.arr []),
         ⟨(cache_get 3 (flashcardsKey "study text" 20) ([] : Cache)).2, ⟨5, 3, 1, 0⟩⟩) :=
  parse_failure_yields_empty_list_no_error sampleEnvOk loadsAlwaysFail 3 "study text" "quiz"
    10 20 none ⟨[], ⟨0, 0, 0, 0⟩⟩ "not json" ⟨5, 3, 1, 0⟩
    "Expecting value: line 1 column 1 (char 0)" rfl rfl rfl rfl

/-- Claim C9 (confirmed): when the value cached under the request's
fingerprint is empty (empty string or list — not truthy), every cached
generation operation behaves exactly as a cache miss: no cache hit is
recorded, the provider is invoked again (the ledger records one more call
with the fresh attempt's tokens), and the summary/orientation operations
return the freshly generated content. -/
theorem empty_cached_value_treated_as_miss
    (env : AIEnv) (loads : String → Except String Json) (now : Nat)
    (text summary_type quiz_type academic_level : String)
    (num_questions num_cards : Nat) (difficulty : Option String)
    (st : AIState) (content : String) (u2 : TokenUsage)
    (hP : get_ai_response env st.usage = (.ok content, u2))
    (hS : (cache_get now (summaryKey text summary_type) st.cache).1.truthy = false)
    (hQ : (cache_get now (quizKey text num_questions difficulty quiz_type) st.cache).1.truthy
      = false)
    (hF : (cache_get now (flashcardsKey text num_cards) st.cache).1.truthy = false)
    (hO : (cache_get now (orientationKey academic_level) st.cache).1.truthy = false) :
    u2.cached_hits = st.usage.cached_hits ∧
    u2.total_calls = st.usage.total_calls + 1 ∧
    (generate_summary env now text summary_type st).1 = .ok (.str content) ∧
    (generate_summary env now text summary_type st).2.usage = u2 ∧
    (generate_quiz_questions env loads now text num_questions difficulty quiz_type st).2.usage
      = u2 ∧
    (generate_flashcards env loads now text num_cards st).2.usage = u2 ∧
    (generate_orientation_message env now academic_level st).1 = .ok (.str content) ∧
    (generate_orientation_message env now academic_level st).2.usage = u2 := by
  obtain ⟨hch, htc⟩ := get_ai_response_ok_usage hP
  refine ⟨hch, htc, ?_, ?_, ?_, ?_, ?_, ?_⟩
  · simp only [generate_summary, hS, Bool.false_eq_true, ite_false, hP]
  · simp only [generate_summary, hS, Bool.false_eq_true, ite_false, hP]
  · simp only [generate_quiz_questions, hQ, Bool.false_eq_true, ite_false, hP]
    rcases parse_json_response loads content (some "questions") with e | r <;> rfl
  · simp only [generate_flashcards, hF, Bool.false_eq_true, ite_false, hP]
    rcases parse_json_response loads content (some "flashcards") with e | r <;> rfl
  · simp only [generate_orientation_message, hO, Bool.false_eq_true, ite_false, hP]
  · simp only [generate_orientation_message, hO, Bool.false_eq_true, ite_false, hP]

/-- Witness for the C9 theorem: a cache storing `""` for summary and
orientation and `[]` for quiz and flashcards is bypassed like a miss. -/
theorem empty_cached_value_treated_as_miss_witness :
    (⟨5, 3, 1, 0⟩ : TokenUsage).cached_hits = (⟨0, 0, 0, 0⟩ : TokenUsage).cached_hits ∧
    (⟨5, 3, 1, 0⟩ : TokenUsage).total_calls = (⟨0, 0, 0, 0⟩ : TokenUsage).total_calls + 1 ∧
    (generate_summary sampleEnvOk 5 "doc" "general" ⟨cacheEmptyVals, ⟨0, 0, 0, 0⟩⟩).1
      = .ok (.str "not json") ∧
    (generate_summary sampleEnvOk 5 "doc" "general" ⟨cacheEmptyVals, ⟨0, 0, 0, 0⟩⟩).2.usage
      = ⟨5, 3, 1, 0⟩ ∧
    (generate_quiz_questions sampleEnvOk loadsAlwaysFail 5 "doc" 10 none "quiz"
        ⟨cacheEmptyVals, ⟨0, 0, 0, 0⟩⟩).2.usage = ⟨5, 3, 1, 0⟩ ∧
    (generate_flashcards sampleEnvOk loadsAlwaysFail 5 "doc" 20
        ⟨cacheEmptyVals, ⟨0, 0, 0, 0⟩⟩).2.usage = ⟨5, 3, 1, 0⟩ ∧
    (generate_orientation_message sampleEnvOk 5 "uni" ⟨cacheEmptyVals, ⟨0, 0, 0, 0⟩⟩).1
      = .ok (.str "not json") ∧
    (generate_orientation_message sampleEnvOk 5 "uni" ⟨cacheEmptyVals, ⟨0, 0, 0, 0⟩⟩).2.usage
      = ⟨5, 3, 1, 0⟩ :=
  empty_cached_value_treated_as_miss sampleEnvOk loadsAlwaysFail 5 "doc" "general" "quiz" "uni"
    10 20 none ⟨cacheEmptyVals, ⟨0, 0, 0, 0⟩⟩ "not json" ⟨5, 3, 1, 0⟩ rfl rfl rfl rfl rfl

theorem vision_requests_min (ps : List (Option String)) (u : TokenUsage) :
    (extract_pdf_with_ai_vision true true true (.ok ps) u).requests = min 10 ps.length := by
  have hfold : ((ps.take 10).enum.foldl visionStep ([], u, 0)).2.2 = min 10 ps.length := by
    rw [foldl_visionStep_requests]
    simp [List.enum_length, List.length_take]
  simp only [extract_pdf_with_ai_vision, Bool.not_true, Bool.false_eq_true, ite_false]
  split
  · exact hfold
  · exact hfold

/-- Claim C7 (confirmed): on a cache miss for a PDF, (a) if the native parse
output passes the quality heuristic, `extract_text` returns it and the local
OCR and remote vision stages are never invoked; (b) the remote vision stage
appears in the invoked-stage trace only when the local OCR stage reported
failure (unavailable or rejected output); (c) the vision stage issues at
most 10 per-page provider requests — exactly one per page of the capped page
list — and (d) concatenates the per-page texts with explicit page markers. -/
theorem extraction_chain_order_and_vision_cap
    (env : FileEnv) (fileHash : String) (st : FileState)
    (hmiss : findCached fileHash st.text_cache = none) :
    ((extract_pdf_local env.pdf_pages).2 = true →
      extract_text env fileHash "pdf" st
        = (.ok (extract_pdf_local env.pdf_pages).1,
           ⟨cacheStore fileHash (extract_pdf_local env.pdf_pages).1 st.text_cache, st.usage⟩,
           [Stage.nativeParse])) ∧
    (Stage.remoteVision ∈ (extract_text env fileHash "pdf" st).2.2 →
      (extract_pdf_with_ocr env.pdf2image env.tesseract env.ocr_pages).2 = false) ∧
    (∀ (aiOk geminiOk p2i : Bool) (pages : Except String (List (Option String)))
        (u : TokenUsage),
      (extract_pdf_with_ai_vision aiOk geminiOk p2i pages u).requests ≤ 10) ∧
    (∀ (ps : List (Option String)) (u : TokenUsage),
      (extract_pdf_with_ai_vision true true true (.ok ps) u).requests = min 10 ps.length) ∧
    (∀ (t1 t2 : String) (u : TokenUsage), t1.isEmpty = false → t2.isEmpty = false →
      (extract_pdf_with_ai_vision true true true (.ok [some t1, some t2]) u).result
        = .ok (String.intercalate "\n\n" [pageMarker 0 t1, pageMarker 1 t2])) := by
  have h1 : (("pdf" : String) = "txt") = False := eq_false (by decide)
  have h2 : (("pdf" : String) = "pdf") = True := eq_true rfl
  have hext : pyExtNormalize "pdf" = "pdf" := rfl
  refine ⟨?_, ?_, ?_, fun ps u => vision_requests_min ps u, ?_⟩
  · intro hnat
    have hne := extract_pdf_local_ne_empty hnat
    simp only [extract_text, hmiss, hext, h1, h2, ite_false, ite_true, hnat, hne,
      eq_self_iff_true, Bool.false_eq_true]
  · intro hmem
    rcases hocr2 : (extract_pdf_with_ocr env.pdf2image env.tesseract env.ocr_pages).2
      with _ | _
    · rfl
    · exfalso
      rcases hnat2 : (extract_pdf_local env.pdf_pages).2 with _ | _
      · have htr : (extract_text env fileHash "pdf" st).2.2
            = [Stage.nativeParse, Stage.localOcr] := by
          simp only [extract_text, hmiss, hext, h1, h2, ite_false, ite_true, hnat2, hocr2,
            eq_self_iff_true, Bool.false_eq_true]
        rw [htr] at hmem
        exact absurd hmem (by decide)
      · have htr : (extract_text env fileHash "pdf" st).2.2 = [Stage.nativeParse] := by
          simp only [extract_text, hmiss, hext, h1, h2, ite_false, ite_true, hnat2,
            eq_self_iff_true, Bool.false_eq_true]
        rw [htr] at hmem
        exact absurd hmem (by decide)
  · intro aiOk geminiOk p2i pages u
    rcases aiOk with _ | _
    · simp [extract_pdf_with_ai_vision]
    · rcases geminiOk with _ | _
      · simp [extract_pdf_with_ai_vision]
      · rcases p2i with _ | _
        · simp [extract_pdf_with_ai_vision]
        · rcases pages with e | ps
          · simp [extract_pdf_with_ai_vision]
          · rw [vision_requests_min]
            exact Nat.min_le_left 10 _
  · intro t1 t2 u ht1 ht2
    simp [extract_pdf_with_ai_vision, visionStep, List.enum, List.enumFrom, ht1, ht2]

set_option maxRecDepth 100000 in
/-- Witness for the C7 theorem: a text-bearing PDF is accepted at the native
parse stage, cached, and neither OCR stage appears in the trace. -/
theorem extraction_chain_order_and_vision_cap_witness :
    extract_text envNativeOk "h1" "pdf" ⟨[], ⟨0, 0, 0, 0⟩⟩
      = (.ok meaningfulSample, ⟨[("h1", meaningfulSample)], ⟨0, 0, 0, 0⟩⟩,
         [Stage.nativeParse]) :=
  (extraction_chain_order_and_vision_cap envNativeOk "h1" ⟨[], ⟨0, 0, 0, 0⟩⟩ rfl).1 rfl

/-- Claim C8 (confirmed): for a document whose hash is present in the
extraction cache, `extract_text` returns the cached text at once — for any
extension argument — with the state (including the usage ledger) unchanged
and no extraction stage invoked. -/
theorem cached_extraction_immediate_no_stages
    (env : FileEnv) (fileHash file_extension : String) (st : FileState) (t : String)
    (hcached : findCached fileHash st.text_cache = some t) :
    extract_text env fileHash file_extension st = (.ok t, st, []) :=
  extract_text_of_cached hcached

/-- Witness for the C8 theorem at a concrete input. -/
theorem cached_extraction_immediate_no_stages_witness :
    extract_text envNativeOk "h1" "pdf" ⟨[("h1", "cached text")], ⟨1, 2, 3, 4⟩⟩
      = (.ok "cached text", ⟨[("h1", "cached text")], ⟨1, 2, 3, 4⟩⟩, []) :=
  cached_extraction_immediate_no_stages envNativeOk "h1" "pdf"
    ⟨[("h1", "cached text")], ⟨1, 2, 3, 4⟩⟩ "cached text" rfl

/-- Claim C10 (confirmed): when the whole PDF chain fails (native parse
rejected, OCR rejected or unavailable, vision raising) but a non-empty
best-effort text exists, `extract_text` returns that rejected partial text
AND caches it under the file hash with no expiry; every later call with the
same hash — any environment, any extension — returns it immediately with no
stages invoked, until `clear_cache` removes it. -/
theorem rejected_partial_text_cached_and_served
    (env : FileEnv) (fileHash : String) (st : FileState) (t ot emsg : String)
    (hmiss : findCached fileHash st.text_cache = none)
    (hnat : extract_pdf_local env.pdf_pages = (t, false))
    (hocr : extract_pdf_with_ocr env.pdf2image env.tesseract env.ocr_pages = (ot, false))
    (hvis : (extract_pdf_with_ai_vision env.ai_available env.gemini_ok env.pdf2image
        env.vision_pages st.usage).result = .error emsg)
    (hbest : (bestEffortOf t ot).isEmpty = false) :
    extract_text env fileHash "pdf" st
      = (.ok (bestEffortOf t ot),
         ⟨cacheStore fileHash (bestEffortOf t ot) st.text_cache,
          (extract_pdf_with_ai_vision env.ai_available env.gemini_ok env.pdf2image
            env.vision_pages st.usage).usage⟩,
         [Stage.nativeParse, Stage.localOcr, Stage.remoteVision]) ∧
    (∀ (env2 : FileEnv) (ext2 : String) (u3 : TokenUsage),
      extract_text env2 fileHash ext2
          ⟨cacheStore fileHash (bestEffortOf t ot) st.text_cache, u3⟩
        = (.ok (bestEffortOf t ot),
           ⟨cacheStore fileHash (bestEffortOf t ot) st.text_cache, u3⟩, [])) ∧
    findCached fileHash
      (clear_cache ⟨cacheStore fileHash (bestEffortOf t ot) st.text_cache,
        st.usage⟩).text_cache = none := by
  have h1 : (("pdf" : String) = "txt") = False := eq_false (by decide)
  have h2 : (("pdf" : String) = "pdf") = True := eq_true rfl
  have hext : pyExtNormalize "pdf" = "pdf" := rfl
  refine ⟨?_, ?_, rfl⟩
  · rcases hot : ot.isEmpty with _ | _
    · have hbest2 : bestEffortOf t ot = ot := by
        simp [bestEffortOf, hot]
      rw [hbest2] at hbest ⊢
      simp only [extract_text, hmiss, hext, h1, h2, ite_false, ite_true, hnat, hocr, hvis,
        eq_self_iff_true, Bool.false_eq_true, hot, hbest, Bool.not_false, Bool.not_true]
    · have hbest2 : bestEffortOf t ot = t := by
        simp [bestEffortOf, hot]
      rw [hbest2] at hbest ⊢
      simp only [extract_text, hmiss, hext, h1, h2, ite_false, ite_true, hnat, hocr, hvis,
        eq_self_iff_true, Bool.false_eq_true, hot, hbest, Bool.not_false, Bool.not_true]
  · intro env2 ext2 u3
    exact extract_text_of_cached (findCached_cacheStore_self fileHash (bestEffortOf t ot)
      st.text_cache)

/-- Witness for the C10 theorem: a short rejected native parse is served and
cached after OCR unavailability and a vision failure. -/
theorem rejected_partial_text_cached_and_served_witness :
    extract_text envBestEffort "h2" "pdf" ⟨[], ⟨0, 0, 0, 0⟩⟩
      = (.ok "short", ⟨[("h2", "short")], ⟨0, 0, 0, 0⟩⟩,
         [Stage.nativeParse, Stage.localOcr, Stage.remoteVision]) :=
  (rejected_partial_text_cached_and_served envBestEffort "h2" ⟨[], ⟨0, 0, 0, 0⟩⟩
    "short" "" "Gemini required for vision-based OCR" rfl rfl rfl rfl rfl).1

end Revyse
